import Mathlib

/-
  Verification of the player movement & collision core of the portfolio
  gallery application (src/App.jsx).

  The embedding uses exact rational arithmetic for all geometry: every
  numeric constant in the source is a short decimal, represented exactly
  in ℚ.  The pointer-look model (pitch clamp) uses ℝ because the source
  pitch limit is Math.PI / 2 - 0.05.

  Vectors carry x, y, z components as in THREE.Vector3; an axis-aligned
  box collider carries min and max corners, as produced by
  makeBoxCollider in the source.
-/

structure Vec3 where
  x : ℚ
  y : ℚ
  z : ℚ
deriving DecidableEq, Repr

structure AABB where
  min : Vec3
  max : Vec3
deriving DecidableEq, Repr

/-! Global configuration constants, from the CONFIG block of src/App.jsx. -/

def EYE_HEIGHT : ℚ := 1.6

def MOVE_SPEED : ℚ := 3.5

def WALL_T : ℚ := 0.35

/-- Player collision radius, from the local constant in PlayerControls. -/
def playerRadius : ℚ := 0.25

/-! Room layout, from the ROOM LAYOUT block of src/App.jsx. -/

structure Room where
  xMin : ℚ
  xMax : ℚ
  zMin : ℚ
  zMax : ℚ
  yMax : ℚ
deriving DecidableEq, Repr

def MAIN_ROOM : Room := ⟨-4, 4, -18, 5, 6⟩

def RIGHT_ROOM : Room :=
  ⟨MAIN_ROOM.xMax + WALL_T, MAIN_ROOM.xMax + WALL_T + 6.0, -10, -2, 6⟩

def LEFT_ROOM : Room :=
  ⟨MAIN_ROOM.xMin - WALL_T - 8.0, MAIN_ROOM.xMin - WALL_T,
   RIGHT_ROOM.zMin, RIGHT_ROOM.zMax, RIGHT_ROOM.yMax⟩

def WORLD : Room :=
  ⟨min (min MAIN_ROOM.xMin RIGHT_ROOM.xMin) LEFT_ROOM.xMin,
   max (max MAIN_ROOM.xMax RIGHT_ROOM.xMax) LEFT_ROOM.xMax,
   min (min MAIN_ROOM.zMin RIGHT_ROOM.zMin) LEFT_ROOM.zMin,
   max (max MAIN_ROOM.zMax RIGHT_ROOM.zMax) LEFT_ROOM.zMax,
   max (max MAIN_ROOM.yMax RIGHT_ROOM.yMax) LEFT_ROOM.yMax⟩

/-! Doors and the central partition, from the DOORS / PARTITION block. -/

def PARTITION_Z : ℚ := -4

def PARTITION_DOOR_WIDTH : ℚ := 2.4

def PARTITION_DOOR_HEIGHT : ℚ := 3

def SIDE_DOOR_Z_CENTER : ℚ := (RIGHT_ROOM.zMin + RIGHT_ROOM.zMax) / 2

def SIDE_DOOR_WIDTH : ℚ := 2.6

def SIDE_DOOR_HEIGHT : ℚ := 3

/-- makeBoxCollider from src/App.jsx: a box collider from a center point and
a full-extent size, stored as min and max corners. -/
def makeBoxCollider (center size : Vec3) : AABB :=
  ⟨⟨center.x - size.x / 2, center.y - size.y / 2, center.z - size.z / 2⟩,
   ⟨center.x + size.x / 2, center.y + size.y / 2, center.z + size.z / 2⟩⟩

/-- The collider pieces of a door-pierced wall running along the Z axis at
the fixed plane x = wallX: up to two jamb segments flanking the door
opening and one lintel above it.  This is the block repeated verbatim in
buildColliders for the main-room right wall, the main-room left wall, the
right room left wall and the left room right wall (and mirrored in the
RightWallWithDoor / LeftWallWithDoor components): segment depths are the
door-to-wall-end gaps clamped below at 0.01, and a piece is emitted only
when its extent exceeds 0.01. -/
def sideWallPieces (wallX zMin zMax yMax doorCenterZ doorWidth doorHeight wallT : ℚ) :
    List AABB :=
  let doorZMin := doorCenterZ - doorWidth / 2
  let doorZMax := doorCenterZ + doorWidth / 2
  let seg1Depth := max 0.01 (doorZMin - zMin)
  let seg2Depth := max 0.01 (zMax - doorZMax)
  let lintelHeight := max 0.01 (yMax - doorHeight)
  (if 0.01 < seg1Depth then
    [makeBoxCollider ⟨wallX, yMax / 2, zMin + seg1Depth / 2⟩ ⟨wallT, yMax, seg1Depth⟩]
   else []) ++
  (if 0.01 < seg2Depth then
    [makeBoxCollider ⟨wallX, yMax / 2, doorZMax + seg2Depth / 2⟩ ⟨wallT, yMax, seg2Depth⟩]
   else []) ++
  (if 0.01 < lintelHeight then
    [makeBoxCollider ⟨wallX, (yMax + doorHeight) / 2, doorCenterZ⟩
      ⟨wallT, lintelHeight, doorWidth⟩]
   else [])

/-- The collider pieces of the partition wall running along the X axis at
the plane z (thickness toward z + wallT): up to two jamb segments and one
lintel, from the partition block of buildColliders (and the
PartitionWallWithDoor component). -/
def partitionPieces (xMin xMax yMax z doorCenterX doorWidth doorHeight wallT : ℚ) :
    List AABB :=
  let doorXMin := doorCenterX - doorWidth / 2
  let doorXMax := doorCenterX + doorWidth / 2
  let leftSegW := max 0.01 (doorXMin - xMin)
  let rightSegW := max 0.01 (xMax - doorXMax)
  let lintelHeight := max 0.01 (yMax - doorHeight)
  (if 0.01 < leftSegW then
    [makeBoxCollider ⟨xMin + leftSegW / 2, yMax / 2, z + wallT / 2⟩ ⟨leftSegW, yMax, wallT⟩]
   else []) ++
  (if 0.01 < rightSegW then
    [makeBoxCollider ⟨doorXMax + rightSegW / 2, yMax / 2, z + wallT / 2⟩
      ⟨rightSegW, yMax, wallT⟩]
   else []) ++
  (if 0.01 < lintelHeight then
    [makeBoxCollider ⟨doorCenterX, (yMax + doorHeight) / 2, z + wallT / 2⟩
      ⟨doorWidth, lintelHeight, wallT⟩]
   else [])

/-- Only the lintel part of partitionPieces: what a doored wall degrades to
when both jambs are omitted. -/
def partitionLintel (_xMin _xMax yMax z doorCenterX doorWidth doorHeight wallT : ℚ) :
    List AABB :=
  let lintelHeight := max 0.01 (yMax - doorHeight)
  if 0.01 < lintelHeight then
    [makeBoxCollider ⟨doorCenterX, (yMax + doorHeight) / 2, z + wallT / 2⟩
      ⟨doorWidth, lintelHeight, wallT⟩]
  else []

/-- buildColliders from src/App.jsx: the full collider list of the scene, in
push order.  The door-pierced wall blocks are the sideWallPieces and
partitionPieces instantiations with the constants used inline in the
source. -/
def buildColliders : List AABB :=
  let widthMain := MAIN_ROOM.xMax - MAIN_ROOM.xMin
  let widthR := RIGHT_ROOM.xMax - RIGHT_ROOM.xMin
  let depthR := RIGHT_ROOM.zMax - RIGHT_ROOM.zMin
  let widthL := LEFT_ROOM.xMax - LEFT_ROOM.xMin
  let depthL := LEFT_ROOM.zMax - LEFT_ROOM.zMin
  [makeBoxCollider
    ⟨(MAIN_ROOM.xMin + MAIN_ROOM.xMax) / 2, MAIN_ROOM.yMax / 2, MAIN_ROOM.zMax + WALL_T / 2⟩
    ⟨widthMain, MAIN_ROOM.yMax, WALL_T⟩,
   makeBoxCollider
    ⟨(MAIN_ROOM.xMin + MAIN_ROOM.xMax) / 2, MAIN_ROOM.yMax / 2, MAIN_ROOM.zMin - WALL_T / 2⟩
    ⟨widthMain, MAIN_ROOM.yMax, WALL_T⟩] ++
  sideWallPieces (MAIN_ROOM.xMax + WALL_T / 2) MAIN_ROOM.zMin MAIN_ROOM.zMax MAIN_ROOM.yMax
    SIDE_DOOR_Z_CENTER SIDE_DOOR_WIDTH SIDE_DOOR_HEIGHT WALL_T ++
  sideWallPieces (MAIN_ROOM.xMin - WALL_T / 2) MAIN_ROOM.zMin MAIN_ROOM.zMax MAIN_ROOM.yMax
    SIDE_DOOR_Z_CENTER SIDE_DOOR_WIDTH SIDE_DOOR_HEIGHT WALL_T ++
  partitionPieces MAIN_ROOM.xMin MAIN_ROOM.xMax MAIN_ROOM.yMax PARTITION_Z 0
    PARTITION_DOOR_WIDTH PARTITION_DOOR_HEIGHT WALL_T ++
  [makeBoxCollider
    ⟨(RIGHT_ROOM.xMin + RIGHT_ROOM.xMax) / 2, RIGHT_ROOM.yMax / 2, RIGHT_ROOM.zMax + WALL_T / 2⟩
    ⟨widthR, RIGHT_ROOM.yMax, WALL_T⟩,
   makeBoxCollider
    ⟨(RIGHT_ROOM.xMin + RIGHT_ROOM.xMax) / 2, RIGHT_ROOM.yMax / 2, RIGHT_ROOM.zMin - WALL_T / 2⟩
    ⟨widthR, RIGHT_ROOM.yMax, WALL_T⟩,
   makeBoxCollider
    ⟨RIGHT_ROOM.xMax + WALL_T / 2, RIGHT_ROOM.yMax / 2, (RIGHT_ROOM.zMin + RIGHT_ROOM.zMax) / 2⟩
    ⟨WALL_T, RIGHT_ROOM.yMax, depthR⟩] ++
  sideWallPieces (RIGHT_ROOM.xMin - WALL_T / 2) RIGHT_ROOM.zMin RIGHT_ROOM.zMax RIGHT_ROOM.yMax
    SIDE_DOOR_Z_CENTER SIDE_DOOR_WIDTH SIDE_DOOR_HEIGHT WALL_T ++
  [makeBoxCollider
    ⟨(LEFT_ROOM.xMin + LEFT_ROOM.xMax) / 2, LEFT_ROOM.yMax / 2, LEFT_ROOM.zMax + WALL_T / 2⟩
    ⟨widthL, LEFT_ROOM.yMax, WALL_T⟩,
   makeBoxCollider
    ⟨(LEFT_ROOM.xMin + LEFT_ROOM.xMax) / 2, LEFT_ROOM.yMax / 2, LEFT_ROOM.zMin - WALL_T / 2⟩
    ⟨widthL, LEFT_ROOM.yMax, WALL_T⟩,
   makeBoxCollider
    ⟨LEFT_ROOM.xMin - WALL_T / 2, LEFT_ROOM.yMax / 2, (LEFT_ROOM.zMin + LEFT_ROOM.zMax) / 2⟩
    ⟨WALL_T, LEFT_ROOM.yMax, depthL⟩] ++
  sideWallPieces (LEFT_ROOM.xMax + WALL_T / 2) LEFT_ROOM.zMin LEFT_ROOM.zMax LEFT_ROOM.yMax
    SIDE_DOOR_Z_CENTER SIDE_DOOR_WIDTH SIDE_DOOR_HEIGHT WALL_T

/-- Squared distance from a point to the closest point of a box, obtained by
clamping each coordinate of the point into the box, exactly as computed
inside sphereIntersectsAABB. -/
def sqDistToBox (spherePos : Vec3) (aabb : AABB) : ℚ :=
  let x := max aabb.min.x (min spherePos.x aabb.max.x)
  let y := max aabb.min.y (min spherePos.y aabb.max.y)
  let z := max aabb.min.z (min spherePos.z aabb.max.z)
  let dx := x - spherePos.x
  let dy := y - spherePos.y
  let dz := z - spherePos.z
  dx * dx + dy * dy + dz * dz

/-- sphereIntersectsAABB from src/App.jsx: clamp the sphere center into the
box and compare the squared distance against the squared radius
(inclusive). -/
def sphereIntersectsAABB (spherePos : Vec3) (radius : ℚ) (aabb : AABB) : Bool :=
  decide (sqDistToBox spherePos aabb ≤ radius * radius)

/-! ### Per-frame locomotion, from PlayerControls in src/App.jsx

The useFrame body first derives forward and right basis vectors from the
camera orientation (trigonometric, hence kept as parameters here), sums
the basis vectors selected by the held keys into a raw movement vector,
and, when that vector is nonzero, normalizes it, scales it by
MOVE_SPEED * delta, and resolves the resulting displacement per axis
against the colliders before clamping into the world bounds.
Normalization divides by a square root, which has no exact rational
form, so the step is parametrized by both the raw key-sum vector (which
drives the source guard move.lengthSq() > 0) and the displacement vector
that results from normalizing and scaling it. -/

/-- Held movement keys KeyW / KeyS / KeyA / KeyD. -/
structure Keys where
  w : Bool
  s : Bool
  a : Bool
  d : Bool
deriving DecidableEq, Repr

def vadd (a b : Vec3) : Vec3 := ⟨a.x + b.x, a.y + b.y, a.z + b.z⟩

def vsub (a b : Vec3) : Vec3 := ⟨a.x - b.x, a.y - b.y, a.z - b.z⟩

def lengthSq (v : Vec3) : ℚ := v.x * v.x + v.y * v.y + v.z * v.z

/-- The raw key-sum movement vector: forward for KeyW, minus forward for
KeyS, minus right for KeyA, right for KeyD. -/
def rawMove (k : Keys) (forward right : Vec3) : Vec3 :=
  let m : Vec3 := ⟨0, 0, 0⟩
  let m := if k.w then vadd m forward else m
  let m := if k.s then vsub m forward else m
  let m := if k.a then vsub m right else m
  let m := if k.d then vadd m right else m
  m

/-- THREE.MathUtils.clamp: Math.max(lo, Math.min(hi, v)). -/
def clampQ (v lo hi : ℚ) : ℚ := max lo (min hi v)

/-- Whether any collider of the list overlaps the player sphere at position
p — the for-loop with early break over colliders in useFrame. -/
def blockedAt (p : Vec3) (colliders : List AABB) : Bool :=
  colliders.any (fun aabb => sphereIntersectsAABB p playerRadius aabb)

/-- The X-phase candidate position: current position plus only the X
displacement, with Y pinned to eye height for the test. -/
def attemptXPos (pos move : Vec3) : Vec3 := ⟨pos.x + move.x, EYE_HEIGHT, pos.z⟩

/-- Per-axis sliding resolution: commit the X displacement unless some
collider blocks the X candidate, then commit the Z displacement unless
some collider blocks the Z candidate built from the possibly-updated X.
Only the x and z fields of the position are written; y is untouched. -/
def resolveAxes (pos move : Vec3) (colliders : List AABB) : Vec3 :=
  let x1 := if blockedAt (attemptXPos pos move) colliders then pos.x else pos.x + move.x
  let z1 := if blockedAt ⟨x1, EYE_HEIGHT, pos.z + move.z⟩ colliders then pos.z
            else pos.z + move.z
  ⟨x1, pos.y, z1⟩

/-- The body of the nonzero-movement branch: per-axis resolution followed by
the world-bound clamp on x and z with margin 0.3. -/
def moveStep (pos move : Vec3) (colliders : List AABB) : Vec3 :=
  let p := resolveAxes pos move colliders
  ⟨clampQ p.x (WORLD.xMin + 0.3) (WORLD.xMax - 0.3), p.y,
   clampQ p.z (WORLD.zMin + 0.3) (WORLD.zMax - 0.3)⟩

/-- One frame of position update: if the raw key-sum vector is nonzero
(move.lengthSq() > 0 in the source), run moveStep on the normalized and
scaled displacement disp; otherwise leave the position untouched. -/
def frameStepWith (pos raw disp : Vec3) (colliders : List AABB) : Vec3 :=
  if 0 < lengthSq raw then moveStep pos disp colliders else pos

/-- Player pose: position plus yaw/pitch orientation. -/
structure PlayerState where
  pos : Vec3
  yaw : ℚ
  pitch : ℚ
deriving DecidableEq, Repr

/-- One full frame of PlayerControls.useFrame: the camera rotation is
re-derived from yaw/pitch (which the frame never modifies) and the
position is updated by frameStepWith. -/
def playerFrame (st : PlayerState) (keys : Keys) (forward right disp : Vec3)
    (colliders : List AABB) : PlayerState :=
  ⟨frameStepWith st.pos (rawMove keys forward right) disp colliders, st.yaw, st.pitch⟩

/-! ### Pointer-look state, from the mousemove handler in PlayerControls

Real-valued because the pitch limit is Math.PI / 2 - 0.05. -/

def MOUSE_SENSITIVITY : ℝ := 0.002

structure LookState where
  yaw : ℝ
  pitch : ℝ

noncomputable def pitchLimit : ℝ := Real.pi / 2 - 0.05

/-- One mousemove event under pointer lock: yaw -= dx * sensitivity,
pitch -= dy * sensitivity, then pitch is clamped to [-limit, limit]. -/
noncomputable def lookMove (s : LookState) (dx dy : ℝ) : LookState :=
  ⟨s.yaw - dx * MOUSE_SENSITIVITY,
   max (-pitchLimit) (min pitchLimit (s.pitch - dy * MOUSE_SENSITIVITY))⟩

/-- Process a sequence of pointer-delta events in order. -/
noncomputable def lookRun (s : LookState) (ds : List (ℝ × ℝ)) : LookState :=
  ds.foldl (fun t d => lookMove t d.1 d.2) s

/-- The yaw and pitch refs both start at 0. -/
def lookInit : LookState := ⟨0, 0⟩

/-- A doored wall running along the Z axis decomposes as the claim
describes: the list is exactly two full-height jambs followed by one
lintel, jamb 1 spanning the wall start to the door opening, jamb 2
spanning the door opening to the wall end, and the lintel covering
exactly the door opening from the door height up to the ceiling. -/
def jambsLintelAlongZ (L : List AABB) (zStart zEnd c w h ym : ℚ) : Prop :=
  match L with
  | [j1, j2, lin] =>
      j1.min.z = zStart ∧ j1.max.z = c - w / 2 ∧ j1.min.y = 0 ∧ j1.max.y = ym ∧
      j2.min.z = c + w / 2 ∧ j2.max.z = zEnd ∧ j2.min.y = 0 ∧ j2.max.y = ym ∧
      lin.min.z = c - w / 2 ∧ lin.max.z = c + w / 2 ∧ lin.min.y = h ∧ lin.max.y = ym
  | _ => False

/-- Same decomposition shape for the partition wall, which runs along the X
axis. -/
def jambsLintelAlongX (L : List AABB) (xStart xEnd c w h ym : ℚ) : Prop :=
  match L with
  | [j1, j2, lin] =>
      j1.min.x = xStart ∧ j1.max.x = c - w / 2 ∧ j1.min.y = 0 ∧ j1.max.y = ym ∧
      j2.min.x = c + w / 2 ∧ j2.max.x = xEnd ∧ j2.min.y = 0 ∧ j2.max.y = ym ∧
      lin.min.x = c - w / 2 ∧ lin.max.x = c + w / 2 ∧ lin.min.y = h ∧ lin.max.y = ym
  | _ => False

/-! ### Helper lemmas -/

theorem clampQ_eq_self (v lo hi : ℚ) (h1 : lo ≤ v) (h2 : v ≤ hi) : clampQ v lo hi = v := by
  unfold clampQ
  rw [min_eq_right h2, max_eq_right h1]

theorem clampQ_eq_lo (v lo hi : ℚ) (hlohi : lo ≤ hi) (h : v < lo) : clampQ v lo hi = lo := by
  unfold clampQ
  rw [min_eq_right (h.le.trans hlohi), max_eq_left h.le]

theorem clampQ_eq_hi (v lo hi : ℚ) (hlohi : lo ≤ hi) (h : hi < v) : clampQ v lo hi = hi := by
  unfold clampQ
  rw [min_eq_left h.le, max_eq_right hlohi]

theorem worldX_lo_le_hi : WORLD.xMin + 0.3 ≤ WORLD.xMax - 0.3 := by
  norm_num [WORLD, MAIN_ROOM, RIGHT_ROOM, LEFT_ROOM, WALL_T, min_def, max_def]

theorem worldZ_lo_le_hi : WORLD.zMin + 0.3 ≤ WORLD.zMax - 0.3 := by
  norm_num [WORLD, MAIN_ROOM, RIGHT_ROOM, LEFT_ROOM, WALL_T, min_def, max_def]

theorem rawMove_no_keys (forward right : Vec3) :
    rawMove ⟨false, false, false, false⟩ forward right = ⟨0, 0, 0⟩ := rfl

theorem frameStepWith_zero_raw (pos disp : Vec3) (cs : List AABB) :
    frameStepWith pos ⟨0, 0, 0⟩ disp cs = pos := by
  unfold frameStepWith
  rw [if_neg]
  simp [lengthSq]

/-! ### Claim theorems -/

/-- C2: the sphere-vs-AABB overlap test clamps the sphere center to the box
and compares squared distance against radius squared: a sphere centered
strictly inside the box overlaps; a sphere whose closest box point is
farther than its radius does not; and the boundary case where the squared
distance equals the squared radius counts as overlap (inclusive
comparison). -/
theorem sphere_aabb_overlap_cases (p : Vec3) (r : ℚ) (b : AABB) :
    (b.min.x < p.x ∧ p.x < b.max.x ∧ b.min.y < p.y ∧ p.y < b.max.y ∧
        b.min.z < p.z ∧ p.z < b.max.z →
      sphereIntersectsAABB p r b = true) ∧
    (r * r < sqDistToBox p b → sphereIntersectsAABB p r b = false) ∧
    (sqDistToBox p b = r * r → sphereIntersectsAABB p r b = true) := by
  refine ⟨?_, ?_, ?_⟩
  · rintro ⟨h1, h2, h3, h4, h5, h6⟩
    have hd : sqDistToBox p b = 0 := by
      simp [sqDistToBox, min_eq_left h2.le, max_eq_right h1.le,
        min_eq_left h4.le, max_eq_right h3.le, min_eq_left h6.le, max_eq_right h5.le]
    simp [sphereIntersectsAABB, hd, mul_self_nonneg r]
  · intro h
    simp [sphereIntersectsAABB]
    linarith
  · intro h
    simp [sphereIntersectsAABB, h]

/-- Witness for C2 at a concrete unit box: center strictly inside with small
radius overlaps, center at distance 1 with radius 1/10 does not, and
center at distance 1 with radius 1 (squared distance equal to squared
radius) overlaps. -/
theorem sphere_aabb_overlap_cases_witness :
    sphereIntersectsAABB ⟨1/2, 1/2, 1/2⟩ (1/10) ⟨⟨0, 0, 0⟩, ⟨1, 1, 1⟩⟩ = true ∧
    sphereIntersectsAABB ⟨2, 1/2, 1/2⟩ (1/10) ⟨⟨0, 0, 0⟩, ⟨1, 1, 1⟩⟩ = false ∧
    sphereIntersectsAABB ⟨2, 1/2, 1/2⟩ 1 ⟨⟨0, 0, 0⟩, ⟨1, 1, 1⟩⟩ = true :=
  ⟨(sphere_aabb_overlap_cases ⟨1/2, 1/2, 1/2⟩ (1/10) ⟨⟨0, 0, 0⟩, ⟨1, 1, 1⟩⟩).1
      (by norm_num),
   (sphere_aabb_overlap_cases ⟨2, 1/2, 1/2⟩ (1/10) ⟨⟨0, 0, 0⟩, ⟨1, 1, 1⟩⟩).2.1
      (by norm_num [sqDistToBox, max_def, min_def]),
   (sphere_aabb_overlap_cases ⟨2, 1/2, 1/2⟩ 1 ⟨⟨0, 0, 0⟩, ⟨1, 1, 1⟩⟩).2.2
      (by norm_num [sqDistToBox, max_def, min_def])⟩

/-- C5 counterexample: the frame step does not reassert the eye height.
Starting from a position with y = 0 and moving with no colliders, the
output y is still 0, not EYE_HEIGHT: the step only ever writes the x and
z coordinates (y is set to the eye height once at mount, outside the
frame loop). -/
theorem frame_step_y_not_reasserted :
    (frameStepWith ⟨0, 0, 0⟩ ⟨1, 0, 1⟩ ⟨1, 0, 1⟩ []).y ≠ EYE_HEIGHT := by
  norm_num [frameStepWith, lengthSq, moveStep, resolveAxes, blockedAt, clampQ, EYE_HEIGHT]

/-- C5 (amended): the frame step never changes the Y coordinate of the
position — its output Y equals its input Y, for every position, raw key
vector, displacement and collider list.  Combined with the mount-time
assignment of EYE_HEIGHT this keeps y = 1.6 for the whole session, but
the step itself performs no vertical reassertion. -/
theorem frame_step_preserves_y (pos raw disp : Vec3) (cs : List AABB) :
    (frameStepWith pos raw disp cs).y = pos.y := by
  unfold frameStepWith moveStep resolveAxes
  split <;> rfl

/-- C7: the frame step is the identity under zero input: with no movement
keys held, the position and the yaw/pitch orientation are exactly
unchanged, for every starting pose, camera basis, displacement and
collider list. -/
theorem zero_input_frame_identity (st : PlayerState) (forward right disp : Vec3)
    (cs : List AABB) :
    playerFrame st ⟨false, false, false, false⟩ forward right disp cs = st := by
  cases st with
  | mk pos yaw pitch =>
    simp [playerFrame, rawMove_no_keys, frameStepWith_zero_raw]

/-- C10: when no movement key is held the frame step skips the world-bound
clamp together with the rest of the movement resolution: the position is
returned untouched — even a position outside the inset world bounds is
left where it is. -/
theorem no_keys_skips_clamp (pos forward right disp : Vec3) (cs : List AABB) :
    frameStepWith pos (rawMove ⟨false, false, false, false⟩ forward right) disp cs
      = pos := by
  rw [rawMove_no_keys, frameStepWith_zero_raw]

/-- C1: axis sliding.  In any frame step with a nonzero movement command
whose X-phase candidate is blocked by some collider while the Z-phase
candidate, tested from the position left unchanged by the X phase, is
not blocked, and whose start and target stay inside the inset world
bounds, the final position discards the X displacement and commits the
full Z displacement — a slide along the wall, never a full stop. -/
theorem axis_sliding (pos raw disp : Vec3) (cs : List AABB)
    (hraw : 0 < lengthSq raw)
    (hbx : blockedAt (attemptXPos pos disp) cs = true)
    (hbz : blockedAt ⟨pos.x, EYE_HEIGHT, pos.z + disp.z⟩ cs = false)
    (hx1 : WORLD.xMin + 0.3 ≤ pos.x) (hx2 : pos.x ≤ WORLD.xMax - 0.3)
    (hz1 : WORLD.zMin + 0.3 ≤ pos.z + disp.z) (hz2 : pos.z + disp.z ≤ WORLD.zMax - 0.3) :
    frameStepWith pos raw disp cs = ⟨pos.x, pos.y, pos.z + disp.z⟩ := by
  rw [frameStepWith, if_pos hraw]
  have hres : resolveAxes pos disp cs = ⟨pos.x, pos.y, pos.z + disp.z⟩ := by
    unfold resolveAxes
    simp [hbx, hbz]
  simp only [moveStep, hres]
  rw [clampQ_eq_self _ _ _ hx1 hx2, clampQ_eq_self _ _ _ hz1 hz2]

/-- Witness for C1: in front of a wall slab occupying x from 4 to 4.35 over
the full room, a diagonal command from (3.7, 1.6, 0) with displacement
(0.15, 0, 0.2) is blocked on X (candidate sphere at x = 3.85 is within
0.25 of the slab) but free on Z, and the step lands at (3.7, 1.6, 0.2). -/
theorem axis_sliding_witness :
    blockedAt (attemptXPos ⟨37/10, 8/5, 0⟩ ⟨3/20, 0, 1/5⟩)
      [⟨⟨4, 0, -18⟩, ⟨87/20, 6, 5⟩⟩] = true ∧
    blockedAt ⟨37/10, EYE_HEIGHT, 0 + 1/5⟩ [⟨⟨4, 0, -18⟩, ⟨87/20, 6, 5⟩⟩] = false ∧
    frameStepWith ⟨37/10, 8/5, 0⟩ ⟨1, 0, 1⟩ ⟨3/20, 0, 1/5⟩
      [⟨⟨4, 0, -18⟩, ⟨87/20, 6, 5⟩⟩] = ⟨37/10, 8/5, 0 + 1/5⟩ :=
  ⟨by norm_num [blockedAt, attemptXPos, sphereIntersectsAABB, sqDistToBox, playerRadius,
      EYE_HEIGHT, max_def, min_def],
   by norm_num [blockedAt, sphereIntersectsAABB, sqDistToBox, playerRadius,
      EYE_HEIGHT, max_def, min_def],
   axis_sliding ⟨37/10, 8/5, 0⟩ ⟨1, 0, 1⟩ ⟨3/20, 0, 1/5⟩ [⟨⟨4, 0, -18⟩, ⟨87/20, 6, 5⟩⟩]
     (by norm_num [lengthSq])
     (by norm_num [blockedAt, attemptXPos, sphereIntersectsAABB, sqDistToBox, playerRadius,
        EYE_HEIGHT, max_def, min_def])
     (by norm_num [blockedAt, sphereIntersectsAABB, sqDistToBox, playerRadius,
        EYE_HEIGHT, max_def, min_def])
     (by norm_num [WORLD, MAIN_ROOM, RIGHT_ROOM, LEFT_ROOM, WALL_T, min_def, max_def])
     (by norm_num [WORLD, MAIN_ROOM, RIGHT_ROOM, LEFT_ROOM, WALL_T, min_def, max_def])
     (by norm_num [WORLD, MAIN_ROOM, RIGHT_ROOM, LEFT_ROOM, WALL_T, min_def, max_def])
     (by norm_num [WORLD, MAIN_ROOM, RIGHT_ROOM, LEFT_ROOM, WALL_T, min_def, max_def])⟩

/-- C8: in any frame step with a nonzero movement command, whenever the
post-collision x or z coordinate lies beyond a world bound inset by the
margin 0.3, the final coordinate is exactly that bound — regardless of
the collider list. -/
theorem world_bound_clamp (pos raw disp : Vec3) (cs : List AABB)
    (hraw : 0 < lengthSq raw) :
    ((resolveAxes pos disp cs).x < WORLD.xMin + 0.3 →
        (frameStepWith pos raw disp cs).x = WORLD.xMin + 0.3) ∧
    (WORLD.xMax - 0.3 < (resolveAxes pos disp cs).x →
        (frameStepWith pos raw disp cs).x = WORLD.xMax - 0.3) ∧
    ((resolveAxes pos disp cs).z < WORLD.zMin + 0.3 →
        (frameStepWith pos raw disp cs).z = WORLD.zMin + 0.3) ∧
    (WORLD.zMax - 0.3 < (resolveAxes pos disp cs).z →
        (frameStepWith pos raw disp cs).z = WORLD.zMax - 0.3) := by
  rw [frameStepWith, if_pos hraw]
  refine ⟨fun h => ?_, fun h => ?_, fun h => ?_, fun h => ?_⟩
  · exact clampQ_eq_lo _ _ _ worldX_lo_le_hi h
  · exact clampQ_eq_hi _ _ _ worldX_lo_le_hi h
  · exact clampQ_eq_lo _ _ _ worldZ_lo_le_hi h
  · exact clampQ_eq_hi _ _ _ worldZ_lo_le_hi h

/-- Witness for C8: with no colliders, stepping from x = 100 by one unit
lands exactly on the upper inset x bound WORLD.xMax - 0.3. -/
theorem world_bound_clamp_witness :
    (0 : ℚ) < lengthSq ⟨1, 0, 0⟩ ∧
    (frameStepWith ⟨100, 8/5, 0⟩ ⟨1, 0, 0⟩ ⟨1, 0, 0⟩ []).x = WORLD.xMax - 0.3 :=
  ⟨by norm_num [lengthSq],
   (world_bound_clamp ⟨100, 8/5, 0⟩ ⟨1, 0, 0⟩ ⟨1, 0, 0⟩ []
       (by norm_num [lengthSq])).2.1
     (by norm_num [resolveAxes, blockedAt, attemptXPos, WORLD, MAIN_ROOM, RIGHT_ROOM,
        LEFT_ROOM, WALL_T, max_def, min_def])⟩

/-- C9: the spawn position (0, EYE_HEIGHT, 2.0) is clear of every collider
produced by buildColliders: the player sphere of radius 0.25 centered
there overlaps none of the 23 boxes of the built scene. -/
theorem spawn_position_clear :
    buildColliders.all
      (fun b => !sphereIntersectsAABB ⟨0, EYE_HEIGHT, 2.0⟩ playerRadius b) = true := by
  norm_num [buildColliders, sideWallPieces, partitionPieces, makeBoxCollider,
    sphereIntersectsAABB, sqDistToBox, playerRadius, EYE_HEIGHT,
    MAIN_ROOM, RIGHT_ROOM, LEFT_ROOM, WALL_T, SIDE_DOOR_Z_CENTER, SIDE_DOOR_WIDTH,
    SIDE_DOOR_HEIGHT, PARTITION_Z, PARTITION_DOOR_WIDTH, PARTITION_DOOR_HEIGHT,
    max_def, min_def, List.all]

/-- C3: every doored wall of the built scene has its door strictly narrower
than the wall and strictly lower than the ceiling, and buildColliders
emits for each of the five doored wall planes exactly two jamb colliders
and one lintel collider, the jambs projecting onto the running axis as
wall start to doorCenter - doorWidth/2 and doorCenter + doorWidth/2 to
wall end — together covering the full span minus exactly the door
opening. -/
theorem doored_walls_jamb_lintel :
    (PARTITION_DOOR_WIDTH < MAIN_ROOM.xMax - MAIN_ROOM.xMin ∧
     PARTITION_DOOR_HEIGHT < MAIN_ROOM.yMax ∧
     SIDE_DOOR_WIDTH < MAIN_ROOM.zMax - MAIN_ROOM.zMin ∧
     SIDE_DOOR_WIDTH < RIGHT_ROOM.zMax - RIGHT_ROOM.zMin ∧
     SIDE_DOOR_WIDTH < LEFT_ROOM.zMax - LEFT_ROOM.zMin ∧
     SIDE_DOOR_HEIGHT < MAIN_ROOM.yMax) ∧
    jambsLintelAlongZ
      (sideWallPieces (MAIN_ROOM.xMax + WALL_T / 2) MAIN_ROOM.zMin MAIN_ROOM.zMax
        MAIN_ROOM.yMax SIDE_DOOR_Z_CENTER SIDE_DOOR_WIDTH SIDE_DOOR_HEIGHT WALL_T)
      MAIN_ROOM.zMin MAIN_ROOM.zMax SIDE_DOOR_Z_CENTER SIDE_DOOR_WIDTH SIDE_DOOR_HEIGHT
      MAIN_ROOM.yMax ∧
    jambsLintelAlongZ
      (sideWallPieces (MAIN_ROOM.xMin - WALL_T / 2) MAIN_ROOM.zMin MAIN_ROOM.zMax
        MAIN_ROOM.yMax SIDE_DOOR_Z_CENTER SIDE_DOOR_WIDTH SIDE_DOOR_HEIGHT WALL_T)
      MAIN_ROOM.zMin MAIN_ROOM.zMax SIDE_DOOR_Z_CENTER SIDE_DOOR_WIDTH SIDE_DOOR_HEIGHT
      MAIN_ROOM.yMax ∧
    jambsLintelAlongZ
      (sideWallPieces (RIGHT_ROOM.xMin - WALL_T / 2) RIGHT_ROOM.zMin RIGHT_ROOM.zMax
        RIGHT_ROOM.yMax SIDE_DOOR_Z_CENTER SIDE_DOOR_WIDTH SIDE_DOOR_HEIGHT WALL_T)
      RIGHT_ROOM.zMin RIGHT_ROOM.zMax SIDE_DOOR_Z_CENTER SIDE_DOOR_WIDTH SIDE_DOOR_HEIGHT
      RIGHT_ROOM.yMax ∧
    jambsLintelAlongZ
      (sideWallPieces (LEFT_ROOM.xMax + WALL_T / 2) LEFT_ROOM.zMin LEFT_ROOM.zMax
        LEFT_ROOM.yMax SIDE_DOOR_Z_CENTER SIDE_DOOR_WIDTH SIDE_DOOR_HEIGHT WALL_T)
      LEFT_ROOM.zMin LEFT_ROOM.zMax SIDE_DOOR_Z_CENTER SIDE_DOOR_WIDTH SIDE_DOOR_HEIGHT
      LEFT_ROOM.yMax ∧
    jambsLintelAlongX
      (partitionPieces MAIN_ROOM.xMin MAIN_ROOM.xMax MAIN_ROOM.yMax PARTITION_Z 0
        PARTITION_DOOR_WIDTH PARTITION_DOOR_HEIGHT WALL_T)
      MAIN_ROOM.xMin MAIN_ROOM.xMax 0 PARTITION_DOOR_WIDTH PARTITION_DOOR_HEIGHT
      MAIN_ROOM.yMax ∧
    buildColliders.length = 23 := by
  norm_num [jambsLintelAlongZ, jambsLintelAlongX, buildColliders, sideWallPieces,
    partitionPieces, makeBoxCollider, MAIN_ROOM, RIGHT_ROOM, LEFT_ROOM, WALL_T,
    SIDE_DOOR_Z_CENTER, SIDE_DOOR_WIDTH, SIDE_DOOR_HEIGHT, PARTITION_Z,
    PARTITION_DOOR_WIDTH, PARTITION_DOOR_HEIGHT, max_def, min_def]

/-- C4 counterexample: a door wider than its wall but off center still
produces a jamb.  On a wall from x = 0 to x = 4 with a door of width 5
centered at x = 3.5, the door opening starts at x = 1, so the rule emits
a full-height jamb from x = 0 to x = 1 alongside the lintel — not a
lintel-only decomposition. -/
theorem wide_door_still_emits_jamb :
    (4 : ℚ) - 0 ≤ 5 ∧
    partitionPieces 0 4 6 0 (7/2) 5 3 WALL_T =
      [makeBoxCollider ⟨1/2, 3, WALL_T / 2⟩ ⟨1, 6, WALL_T⟩,
       makeBoxCollider ⟨7/2, 9/2, WALL_T / 2⟩ ⟨5, 3, WALL_T⟩] ∧
    (makeBoxCollider ⟨1/2, 3, WALL_T / 2⟩ ⟨1, 6, WALL_T⟩).min.y = 0 ∧
    (makeBoxCollider ⟨1/2, 3, WALL_T / 2⟩ ⟨1, 6, WALL_T⟩).max.y = 6 := by
  norm_num [partitionPieces, makeBoxCollider, WALL_T, max_def]

/-- C4 (amended): a jamb is omitted exactly on the sides the door reaches:
whenever the door opening extends to within the 0.01 epsilon of both
wall ends — in particular for a door centered on the wall whose width is
at least the wall length — the rule emits no jamb colliders at all and
the wall degrades to at most a lintel. -/
theorem covered_wall_no_jambs (xMin xMax yMax z c w h t : ℚ)
    (hleft : c - w / 2 ≤ xMin + 0.01) (hright : xMax - 0.01 ≤ c + w / 2) :
    partitionPieces xMin xMax yMax z c w h t = partitionLintel xMin xMax yMax z c w h t := by
  unfold partitionPieces partitionLintel
  have e1 : max (0.01 : ℚ) (c - w / 2 - xMin) = 0.01 := max_eq_left (by linarith)
  have e2 : max (0.01 : ℚ) (xMax - (c + w / 2)) = 0.01 := max_eq_left (by linarith)
  simp only [e1, e2, lt_irrefl, if_false]
  simp

/-- Witness for C4 (amended): a door of width 9 centered on the wall from
x = -4 to x = 4 (length 8) yields the lintel-only decomposition. -/
theorem covered_wall_no_jambs_witness :
    partitionPieces (-4) 4 6 (-4) 0 9 3 WALL_T =
      partitionLintel (-4) 4 6 (-4) 0 9 3 WALL_T :=
  covered_wall_no_jambs (-4) 4 6 (-4) 0 9 3 WALL_T (by norm_num) (by norm_num)

/-! ### Pointer-look lemmas for the pitch clamp -/

theorem pitchLimit_pos : 0 < pitchLimit := by
  have h := Real.pi_gt_three
  unfold pitchLimit
  norm_num
  linarith

theorem sensitivity_nonneg : 0 ≤ MOUSE_SENSITIVITY := by
  norm_num [MOUSE_SENSITIVITY]

theorem lookMove_pitch_bound (s : LookState) (dx dy : ℝ) :
    |(lookMove s dx dy).pitch| ≤ pitchLimit := by
  rw [abs_le]
  constructor
  · exact le_max_left _ _
  · exact max_le (by linarith [pitchLimit_pos]) (min_le_left _ _)

theorem lookRun_pitch_bound (ds : List (ℝ × ℝ)) (s : LookState)
    (hs : |s.pitch| ≤ pitchLimit) : |(lookRun s ds).pitch| ≤ pitchLimit := by
  induction ds generalizing s with
  | nil => exact hs
  | cons d t ih =>
    have hstep := lookMove_pitch_bound s d.1 d.2
    exact ih (lookMove s d.1 d.2) hstep

theorem lookRun_replicate_down (n : ℕ) (d : ℝ) (hd : 0 ≤ d) :
    (lookRun lookInit (List.replicate n (0, d))).pitch
      = max (-pitchLimit) (-(n * (d * MOUSE_SENSITIVITY))) := by
  have hms : 0 ≤ MOUSE_SENSITIVITY := sensitivity_nonneg
  have hl : 0 < pitchLimit := pitchLimit_pos
  induction n with
  | zero =>
    simp [lookRun, lookInit]
    exact hl.le
  | succ n ih =>
    rw [List.replicate_succ']
    unfold lookRun at ih ⊢
    rw [List.foldl_append, List.foldl_cons, List.foldl_nil]
    have hpitch : (List.foldl (fun t d => lookMove t d.1 d.2) lookInit
        (List.replicate n (0, d))).pitch = max (-pitchLimit) (-(n * (d * MOUSE_SENSITIVITY))) := ih
    rw [lookMove, hpitch]
    have hnd : 0 ≤ (n : ℝ) * (d * MOUSE_SENSITIVITY) :=
      mul_nonneg (Nat.cast_nonneg n) (mul_nonneg hd hms)
    have hdm : 0 ≤ d * MOUSE_SENSITIVITY := mul_nonneg hd hms
    rcases le_total (-pitchLimit) (-((n : ℝ) * (d * MOUSE_SENSITIVITY))) with hcase | hcase
    · rw [max_eq_right hcase]
      have h1 : -((n : ℝ) * (d * MOUSE_SENSITIVITY)) - d * MOUSE_SENSITIVITY
          = -(((n : ℝ) + 1) * (d * MOUSE_SENSITIVITY)) := by ring
      rw [h1]
      have h2 : -(((n : ℝ) + 1) * (d * MOUSE_SENSITIVITY)) ≤ pitchLimit := by
        have : 0 ≤ ((n : ℝ) + 1) * (d * MOUSE_SENSITIVITY) :=
          mul_nonneg (by positivity) hdm
        linarith
      rw [min_eq_right h2]
      push_cast
      ring_nf
    · rw [max_eq_left hcase]
      have h1 : -pitchLimit - d * MOUSE_SENSITIVITY ≤ pitchLimit := by linarith
      rw [min_eq_right h1]
      have h2 : -pitchLimit - d * MOUSE_SENSITIVITY ≤ -pitchLimit := by linarith
      rw [max_eq_left h2]
      have h3 : -(((n : ℝ) + 1) * (d * MOUSE_SENSITIVITY)) ≤ -pitchLimit := by
        have : (n : ℝ) * (d * MOUSE_SENSITIVITY) ≤ ((n : ℝ) + 1) * (d * MOUSE_SENSITIVITY) := by
          nlinarith
        linarith
      push_cast
      rw [max_eq_left h3]

/-- C6: for every sequence of pointer-delta events processed from the
initial orientation, the resulting pitch satisfies |pitch| ≤ pi/2 - 0.05;
repeated downward deltas drive pitch exactly to the clamp
max(-limit, -(n * dy * sensitivity)), which bottoms out at -(pi/2 - 0.05)
and goes no further however many deltas follow, while yaw reaches any
prescribed real value with a single suitable delta (it is unbounded). -/
theorem pitch_clamped_yaw_unbounded :
    (∀ ds : List (ℝ × ℝ), |(lookRun lookInit ds).pitch| ≤ pitchLimit) ∧
    (∀ (n : ℕ) (d : ℝ), 0 ≤ d →
      (lookRun lookInit (List.replicate n (0, d))).pitch
        = max (-pitchLimit) (-(n * (d * MOUSE_SENSITIVITY)))) ∧
    (∀ y : ℝ, (lookRun lookInit [(-y / MOUSE_SENSITIVITY, 0)]).yaw = y) := by
  refine ⟨?_, lookRun_replicate_down, ?_⟩
  · intro ds
    apply lookRun_pitch_bound
    simp [lookInit]
    exact pitchLimit_pos.le
  · intro y
    have hms : MOUSE_SENSITIVITY ≠ 0 := by norm_num [MOUSE_SENSITIVITY]
    simp [lookRun, lookMove, lookInit]
    field_simp

/-- Witness for C6: a concrete delta sequence stays within the pitch clamp,
five downward unit deltas land on the closed-form clamped value, and a
single delta drives yaw to 2. -/
theorem pitch_clamped_yaw_unbounded_witness :
    |(lookRun lookInit [(3, 9)]).pitch| ≤ pitchLimit ∧
    (lookRun lookInit (List.replicate 5 (0, 1))).pitch
      = max (-pitchLimit) (-(((5 : ℕ) : ℝ) * (1 * MOUSE_SENSITIVITY))) ∧
    (lookRun lookInit [(-2 / MOUSE_SENSITIVITY, 0)]).yaw = 2 :=
  ⟨pitch_clamped_yaw_unbounded.1 [(3, 9)],
   pitch_clamped_yaw_unbounded.2.1 5 1 zero_le_one,
   pitch_clamped_yaw_unbounded.2.2 2⟩
